import Mathlib

/-
Shallow embedding of the authenticated API access layer of the
broken-heart repository: the OAuth token lifecycle in whoop_auth.py
(WhoopAuth: exchange_code_for_token, refresh_access_token,
get_valid_access_token, revoke_access), the paginated client in
whoop_client.py (WhoopClient: _paginate_request, get_all_health_data),
and the OAuth callback state check in auth_server.py.

Modelling conventions:
  - Python dicts holding the token state are modelled field-wise with
    Option: none means the key is absent (or, where noted, JSON null).
  - Python truthiness of a string value (absent, None and the empty
    string are all falsy) is the decidable predicate truthy.
  - The network is an oracle passed in explicitly: a token-endpoint POST
    either fails (non-2xx, raise_for_status raises) or yields a parsed
    JSON body; the paginated GET endpoints are an oracle list of
    responses consumed one per request, an exhausted list standing for a
    request that raises.
  - Wall-clock time is an integer number of seconds; the ISO timestamp
    stored in expires_at is modelled by that integer.
  - Exceptions are Except values; an operation also returns the
    resulting state and the number of network calls it issued.
-/

/-- Truthiness of a Python string-or-None value: absent/None and the
empty string are falsy, any other string truthy. -/
def truthy : Option String → Bool
  | none => false
  | some s => !(s == "")

/-- Python d.get(k, default): if the key is present its value is
returned even when that value is None (JSON null); only an absent key
falls back to the default. The first argument is the entry of the
response: none = key absent, some v = key present with value v. -/
def pyGet {α : Type} (entry : Option (Option α)) (default : Option α) : Option α :=
  match entry with
  | none => default
  | some v => v

/-- The tokens dict of WhoopAuth (whoop_auth.py): the four keys the code
ever writes, each possibly absent. The empty dict (no tokens ever
acquired, or revoked) has every field none. -/
structure Tokens where
  access_token : Option String
  refresh_token : Option String
  expires_at : Option Int
  token_type : Option String
deriving Repr, DecidableEq

/-- The empty tokens dict, Python {}. -/
def Tokens.emptyDict : Tokens := ⟨none, none, none, none⟩

/-- State owned by one WhoopAuth instance: the in-memory tokens dict and
the persisted token file (none = file absent, some t = file holding the
JSON serialisation of t). -/
structure AuthState where
  tokens : Tokens
  tokenFile : Option Tokens
deriving Repr, DecidableEq

/-- Parsed JSON body of a 2xx token-endpoint response, with the
presence structure the code inspects. Per the external interface,
access_token is a string when present (none = key absent, which makes
the index expression raise KeyError); refresh_token keeps the full
absent / null / string distinction because the code treats an explicit
null differently from an absent key; expires_in and token_type are
read with .get and a constant default. -/
structure TokenResponse where
  access_token : Option String
  refresh_token : Option (Option String)
  expires_in : Option Int
  token_type : Option String
deriving Repr, DecidableEq

/-- Outcome of a token-endpoint POST: non-2xx (raise_for_status raises)
or a parsed JSON body. -/
inductive HttpResult where
  | failure : HttpResult
  | success : TokenResponse → HttpResult
deriving Repr, DecidableEq

/-- The exceptions the auth layer raises. -/
inductive AuthError where
  | notAuthenticated
  | noRefreshToken
  | httpError
  | keyError
deriving Repr, DecidableEq

/-- Result of an operation that may mutate the auth state: the state
after the call, the value returned or exception raised, and the number
of HTTP requests issued. -/
structure OpResult where
  state : AuthState
  result : Except AuthError Tokens
  netCalls : Nat
deriving Repr

/-- WhoopAuth.exchange_code_for_token (whoop_auth.py lines 54-89): POST
the authorization-code grant, raise on non-2xx, then build and persist
the new tokens dict. expires_at = now + token_data.get(expires_in,
3600); refresh_token = token_data.get(refresh_token) with no default;
token_type defaults to Bearer. The code argument only feeds the request
body, which the oracle stands for. -/
def exchange_code_for_token (st : AuthState) (_code : String) (now : Int)
    (http : HttpResult) : OpResult :=
  match http with
  | .failure => ⟨st, .error .httpError, 1⟩
  | .success td =>
    match td.access_token with
    | none => ⟨st, .error .keyError, 1⟩
    | some a =>
      let newTokens : Tokens :=
        { access_token := some a
          refresh_token := pyGet td.refresh_token none
          expires_at := some (now + td.expires_in.getD 3600)
          token_type := some (td.token_type.getD "Bearer") }
      ⟨⟨newTokens, some newTokens⟩, .ok newTokens, 1⟩

/-- WhoopAuth.refresh_access_token (whoop_auth.py lines 91-125): raise
if the stored refresh token is falsy; otherwise POST the refresh grant,
raise on non-2xx, then build and persist the new tokens dict. The new
refresh_token is token_data.get(refresh_token, old refresh token): an
absent key keeps the old value, a present key (even null) replaces it. -/
def refresh_access_token (st : AuthState) (now : Int) (http : HttpResult) : OpResult :=
  match st.tokens.refresh_token with
  | none => ⟨st, .error .noRefreshToken, 0⟩
  | some rt =>
    if rt = "" then ⟨st, .error .noRefreshToken, 0⟩
    else
      match http with
      | .failure => ⟨st, .error .httpError, 1⟩
      | .success td =>
        match td.access_token with
        | none => ⟨st, .error .keyError, 1⟩
        | some a =>
          let newTokens : Tokens :=
            { access_token := some a
              refresh_token := pyGet td.refresh_token (some rt)
              expires_at := some (now + td.expires_in.getD 3600)
              token_type := some (td.token_type.getD "Bearer") }
          ⟨⟨newTokens, some newTokens⟩, .ok newTokens, 1⟩

/-- Result of get_valid_access_token: final state, the token string or
exception, how many times refresh_access_token was invoked, and how
many HTTP requests were issued. -/
structure GetTokenResult where
  state : AuthState
  result : Except AuthError String
  refreshInvocations : Nat
  netCalls : Nat
deriving Repr

/-- WhoopAuth.get_valid_access_token (whoop_auth.py lines 127-143):
raise if the stored access token is falsy; read expires_at (an index
expression, so an absent key raises); if now is at or past expiry minus
five minutes (300 seconds), invoke refresh_access_token once,
propagating its failure; finally return the current access token. -/
def get_valid_access_token (st : AuthState) (now : Int) (http : HttpResult) :
    GetTokenResult :=
  match st.tokens.access_token with
  | none => ⟨st, .error .notAuthenticated, 0, 0⟩
  | some a =>
    if a = "" then ⟨st, .error .notAuthenticated, 0, 0⟩
    else
      match st.tokens.expires_at with
      | none => ⟨st, .error .keyError, 0, 0⟩
      | some expiry =>
        if expiry - 300 ≤ now then
          let r := refresh_access_token st now http
          match r.result with
          | .ok newTokens =>
            match newTokens.access_token with
            | some a2 => ⟨r.state, .ok a2, 1, r.netCalls⟩
            | none => ⟨r.state, .error .keyError, 1, r.netCalls⟩
          | .error e => ⟨r.state, .error e, 1, r.netCalls⟩
        else ⟨st, .ok a, 0, 0⟩

/-- Outcome of the best-effort revocation DELETE: the request completes
(any status) or raises a network exception. -/
inductive RevokeHttp where
  | ok
  | raises
deriving Repr, DecidableEq

/-- WhoopAuth.revoke_access (whoop_auth.py lines 149-166): if an access
token is stored, issue the revocation DELETE inside try/except, logging
and swallowing any exception; then always clear the in-memory tokens
and remove the token file. Returns the new state and the log line, if
any, from the except branch. -/
def revoke_access (st : AuthState) (http : RevokeHttp) : AuthState × Option String :=
  let logged : Option String :=
    if truthy st.tokens.access_token then
      match http with
      | .raises => some "Error revoking token"
      | .ok => none
    else none
  (⟨Tokens.emptyDict, none⟩, logged)

/-
WhoopClient (whoop_client.py). Records carried by a page are opaque to
the pagination logic, so they are a type parameter. A parsed JSON
response is either a bare array of records or an object, of which the
code inspects the records key, the next_token key, and the total number
of keys (len(response)); any further keys are counted by otherKeys.
-/

/-- One parsed JSON response of a resource endpoint, as _paginate_request
inspects it. For obj, records none means the records key is absent or
null (both give a falsy value to response.get), next_token none means
that key is absent, and otherKeys counts the remaining keys of the
object. -/
inductive PageResponse (α : Type) where
  | arr (items : List α)
  | obj (records : Option (List α)) (next_token : Option String) (otherKeys : Nat)
deriving Repr, DecidableEq

/-- An element of the aggregated all_records list: either one provider
record, or a whole response object appended as a single record by the
degenerate branch. -/
inductive Collected (α : Type) where
  | item (a : α)
  | whole (records : Option (List α)) (next_token : Option String) (otherKeys : Nat)
deriving Repr, DecidableEq

/-- The exceptions _paginate_request can raise: an HTTP request that
fails (raise_for_status in _make_request, modelled by the oracle list
running out), or the AttributeError from calling .get on a bare list
response. -/
inductive PagError where
  | httpError
  | attributeError
deriving Repr, DecidableEq

/-- len(response) for an object response: the number of present keys. -/
def dictLen {α : Type} (records : Option (List α)) (next_token : Option String)
    (otherKeys : Nat) : Nat :=
  (if records.isSome then 1 else 0) + (if next_token.isSome then 1 else 0) + otherKeys

/-- The while-loop body of WhoopClient._paginate_request (whoop_client.py
lines 63-87), one recursive step per _make_request call. pages is the
oracle: the responses the upstream delivers, one per request, the empty
list standing for a request that raises. On a bare list response the
expression response.get(records, []) raises AttributeError, so the
isinstance(response, list) branch of the source (lines 73-75) is
unreachable. On an object: a falsy records value with a non-empty
object appends the whole object as one record and stops; a falsy
records value with an empty object appends nothing; a truthy records
list is extended onto all_records; then a falsy next_token stops the
loop. -/
def paginate_loop {α : Type} :
    List (PageResponse α) → List (Collected α) → Nat →
      Except PagError (List (Collected α) × Nat)
  | [], _, _ => .error .httpError
  | .arr _ :: _, _, _ => .error .attributeError
  | .obj records next_token otherKeys :: rest, all_records, calls =>
    let recs := records.getD []
    if recs.isEmpty then
      if dictLen records next_token otherKeys > 0 then
        .ok (all_records ++ [Collected.whole records next_token otherKeys], calls + 1)
      else
        match next_token with
        | some t =>
          if t = "" then .ok (all_records, calls + 1)
          else paginate_loop rest all_records (calls + 1)
        | none => .ok (all_records, calls + 1)
    else
      let acc := all_records ++ recs.map Collected.item
      match next_token with
      | some t =>
        if t = "" then .ok (acc, calls + 1)
        else paginate_loop rest acc (calls + 1)
      | none => .ok (acc, calls + 1)

/-- WhoopClient._paginate_request (whoop_client.py lines 44-89) with the
upstream responses as an oracle list: returns the aggregated records and
the number of requests issued, or the exception raised. The limit
clamping min(limit, 25) only shapes the request parameters, which the
oracle stands for. -/
def _paginate_request {α : Type} (pages : List (PageResponse α)) :
    Except PagError (List (Collected α) × Nat) :=
  paginate_loop pages [] 0

/-- The mapping returned by get_all_health_data, with its exactly four
keys. -/
structure HealthData (α : Type) where
  recovery : List (Collected α)
  sleep : List (Collected α)
  cycles : List (Collected α)
  workouts : List (Collected α)
deriving Repr, DecidableEq

/-- One try/except block of get_all_health_data: the fetch result on
success, the initial empty list when the fetch raises. -/
def fetchOrEmpty {α : Type} (pages : List (PageResponse α)) : List (Collected α) :=
  match _paginate_request pages with
  | .ok (l, _) => l
  | .error _ => []

/-- WhoopClient.get_all_health_data (whoop_client.py lines 167-219):
fetches the four resource kinds independently, each inside try/except,
a failed fetch leaving the initial empty list for its key. Each
argument is the oracle of upstream responses for one resource kind. -/
def get_all_health_data {α : Type} (rp sp cp wp : List (PageResponse α)) :
    HealthData α :=
  { recovery := fetchOrEmpty rp
    sleep := fetchOrEmpty sp
    cycles := fetchOrEmpty cp
    workouts := fetchOrEmpty wp }

/-
The OAuth callback route of auth_server.py (lines 38-60).
-/

/-- The HTTP response the callback route produces. -/
inductive CallbackResponse where
  | stateMismatch
  | oauthError (e : String)
  | noCode
  | exchangeFailed
  | redirectHome
deriving Repr, DecidableEq

/-- Result of the callback route: the response, the auth state after the
call, and the number of invocations of exchange_code_for_token. -/
structure CallbackResult where
  response : CallbackResponse
  state : AuthState
  exchangeCalls : Nat
deriving Repr

/-- The callback route of auth_server.py (lines 38-60): reject when the
returned state differs from the session state (both read with .get, so
either may be absent); reject when the error query parameter is truthy;
reject when the code query parameter is falsy; otherwise invoke
exchange_code_for_token, redirecting home on success and answering 500
on any exception. Under the truthy guard argsCode is some code with
code nonempty, so the getD default is never used. -/
def callback (argsState sessionState argsError argsCode : Option String)
    (now : Int) (http : HttpResult) (st : AuthState) : CallbackResult :=
  if argsState ≠ sessionState then ⟨.stateMismatch, st, 0⟩
  else if truthy argsError then ⟨.oauthError (argsError.getD ""), st, 0⟩
  else if truthy argsCode then
    let r := exchange_code_for_token st (argsCode.getD "") now http
    match r.result with
    | .ok _ => ⟨.redirectHome, r.state, 1⟩
    | .error _ => ⟨.exchangeFailed, r.state, 1⟩
  else ⟨.noCode, st, 0⟩

/-- The TokenSet invariant of the spec: access_token and expires_at are
both present. -/
def Tokens.complete (t : Tokens) : Prop :=
  t.access_token.isSome ∧ t.expires_at.isSome

/-- A TokenSet is either empty or complete. -/
def tokensInvariant (t : Tokens) : Prop :=
  t = Tokens.emptyDict ∨ Tokens.complete t

/-- Sample token state used by witness instantiations. -/
def sampleTokens : Tokens := ⟨some "tok", some "r", some 1000, some "Bearer"⟩

/-- Sample auth state used by witness instantiations. -/
def sampleState : AuthState := ⟨sampleTokens, some sampleTokens⟩

/-- Upstream responses of a well-formed multi-page retrieval: every
page is an object carrying its records array, each page but the last
also carrying the matching continuation token from toks, and the last
page carrying none. The final catch-all only covers argument pairs with
fewer tokens than the well-formedness hypotheses allow. -/
def mkPages {α : Type} : List (List α) → List String → List (PageResponse α)
  | [], _ => []
  | [p], _ => [.obj (some p) none 0]
  | p :: rest, t :: ts => .obj (some p) (some t) 0 :: mkPages rest ts
  | _ :: _, [] => []

/-- A successful refresh issues exactly one HTTP request. -/
theorem refresh_ok_netCalls (st : AuthState) (now : Int) (http : HttpResult)
    (nt : Tokens) (h : (refresh_access_token st now http).result = .ok nt) :
    (refresh_access_token st now http).netCalls = 1 := by
  rcases hrt : st.tokens.refresh_token with _ | rt
  · simp [refresh_access_token, hrt] at h
  · by_cases hrte : rt = ""
    · simp [refresh_access_token, hrt, hrte] at h
    · cases http with
      | failure => simp [refresh_access_token, hrt, hrte] at h
      | success td =>
        rcases hacc : td.access_token with _ | a
        · simp [refresh_access_token, hrt, hrte, hacc] at h
        · simp [refresh_access_token, hrt, hrte, hacc]

/-- C1: with a stored access token, get_valid_access_token returns the
stored token, unchanged state and zero network calls while now is
strictly before expires_at minus 300 seconds; from that margin onward it
invokes refresh_access_token exactly once and, when the refresh
succeeds, returns the renewed access token from the refreshed state
over exactly one network call; with no (or an empty) stored access
token it raises the not-authenticated error without any call. -/
theorem get_valid_access_token_spec (st : AuthState) (now : Int) (http : HttpResult) :
    (∀ a e, st.tokens.access_token = some a → a ≠ "" →
      st.tokens.expires_at = some e →
      ((now < e - 300 →
          get_valid_access_token st now http = ⟨st, .ok a, 0, 0⟩) ∧
       (e - 300 ≤ now →
          (get_valid_access_token st now http).refreshInvocations = 1 ∧
          ∀ nt a2, (refresh_access_token st now http).result = .ok nt →
            nt.access_token = some a2 →
            get_valid_access_token st now http =
              ⟨(refresh_access_token st now http).state, .ok a2, 1,
                (refresh_access_token st now http).netCalls⟩ ∧
            (refresh_access_token st now http).netCalls = 1))) ∧
    (¬ truthy st.tokens.access_token →
      get_valid_access_token st now http = ⟨st, .error .notAuthenticated, 0, 0⟩) := by
  constructor
  · intro a e ha hane he
    constructor
    · intro hlt
      simp only [get_valid_access_token, ha, he]
      rw [if_neg hane, if_neg (by omega)]
    · intro hge
      constructor
      · simp only [get_valid_access_token, ha, he]
        rw [if_neg hane, if_pos hge]
        rcases hres : (refresh_access_token st now http).result with e' | nt
        · simp [hres]
        · rcases hacc : nt.access_token with _ | a2 <;> simp [hres, hacc]
      · intro nt a2 hok ha2
        refine ⟨?_, refresh_ok_netCalls st now http nt hok⟩
        simp only [get_valid_access_token, ha, he]
        rw [if_neg hane, if_pos hge]
        simp [hok, ha2]
  · intro hfalsy
    rcases ha : st.tokens.access_token with _ | a
    · simp [get_valid_access_token, ha]
    · rw [ha] at hfalsy
      simp [truthy] at hfalsy
      simp [get_valid_access_token, ha, hfalsy]

/-- Witness for C1: the fresh branch at a concrete state, 700 seconds
before expiry, returns the stored token with no call. -/
theorem get_valid_access_token_spec_witness :
    get_valid_access_token sampleState 0 .failure =
      ⟨sampleState, .ok "tok", 0, 0⟩ :=
  ((get_valid_access_token_spec sampleState 0 .failure).1
    "tok" 1000 rfl (by decide) rfl).1 (by decide)

/-- C2: a successful refresh overwrites access_token, expires_at and
token_type in the stored and persisted TokenSet from the response, and
replaces refresh_token only when the response carries that key — an
absent key keeps the prior refresh token. -/
theorem refresh_overwrites_fields (st : AuthState) (now : Int) (td : TokenResponse)
    (rt a : String)
    (hrt : st.tokens.refresh_token = some rt) (hne : rt ≠ "")
    (ha : td.access_token = some a) :
    ((refresh_access_token st now (.success td)).result =
        .ok (refresh_access_token st now (.success td)).state.tokens) ∧
    (refresh_access_token st now (.success td)).state.tokens.access_token = some a ∧
    (refresh_access_token st now (.success td)).state.tokens.expires_at =
        some (now + td.expires_in.getD 3600) ∧
    (refresh_access_token st now (.success td)).state.tokens.token_type =
        some (td.token_type.getD "Bearer") ∧
    (refresh_access_token st now (.success td)).state.tokenFile =
        some (refresh_access_token st now (.success td)).state.tokens ∧
    (td.refresh_token = none →
        (refresh_access_token st now (.success td)).state.tokens.refresh_token = some rt) ∧
    (∀ v, td.refresh_token = some (some v) →
        (refresh_access_token st now (.success td)).state.tokens.refresh_token = some v) := by
  simp only [refresh_access_token, hrt, ha]
  rw [if_neg hne]
  refine ⟨rfl, rfl, rfl, rfl, rfl, ?_, ?_⟩
  · intro hnone
    simp [pyGet, hnone]
  · intro v hv
    simp [pyGet, hv]

/-- Witness for C2: a concrete refresh whose response omits
refresh_token keeps the prior refresh token. -/
theorem refresh_overwrites_fields_witness :
    (refresh_access_token sampleState 5
        (.success ⟨some "new", none, some 60, none⟩)).state.tokens.refresh_token =
      some "r" :=
  (refresh_overwrites_fields sampleState 5 ⟨some "new", none, some 60, none⟩
    "r" "new" rfl (by decide) rfl).2.2.2.2.2.1 rfl

/-- C3: a failed code exchange or refresh (non-2xx response, or an
error raised before the new token data is assembled) leaves the whole
auth state, in-memory tokens and persisted file alike, exactly as it
was. -/
theorem failed_exchange_or_refresh_preserves_state (st : AuthState) (code : String)
    (now : Int) (http : HttpResult) :
    (∀ e, (exchange_code_for_token st code now http).result = .error e →
        (exchange_code_for_token st code now http).state = st) ∧
    (∀ e, (refresh_access_token st now http).result = .error e →
        (refresh_access_token st now http).state = st) := by
  constructor
  · intro e he
    cases http with
    | failure => rfl
    | success td =>
      rcases hacc : td.access_token with _ | a
      · simp [exchange_code_for_token, hacc]
      · simp [exchange_code_for_token, hacc] at he
  · intro e he
    rcases hrt : st.tokens.refresh_token with _ | rt
    · simp [refresh_access_token, hrt]
    · by_cases hrte : rt = ""
      · simp [refresh_access_token, hrt, hrte]
      · cases http with
        | failure => simp [refresh_access_token, hrt, hrte]
        | success td =>
          rcases hacc : td.access_token with _ | a
          · simp [refresh_access_token, hrt, hrte, hacc]
          · simp [refresh_access_token, hrt, hrte, hacc] at he

/-- Witness for C3: a non-2xx refresh at a concrete state leaves the
state untouched. -/
theorem failed_exchange_or_refresh_preserves_state_witness :
    (refresh_access_token sampleState 0 .failure).state = sampleState :=
  (failed_exchange_or_refresh_preserves_state sampleState "c" 0 .failure).2
    .httpError rfl

/-- C4: revoke_access always ends with the in-memory TokenSet empty and
the persisted token file removed, whatever the revocation HTTP call
did; the call is total, so no failure propagates. -/
theorem revoke_access_always_clears (st : AuthState) (http : RevokeHttp) :
    (revoke_access st http).1 = ⟨Tokens.emptyDict, none⟩ := rfl

/-- C7: each state-writing operation (code exchange, refresh,
revocation) preserves the empty-or-complete TokenSet invariant. -/
theorem write_ops_preserve_invariant (st : AuthState) (code : String) (now : Int)
    (http : HttpResult) (rhttp : RevokeHttp)
    (hinv : tokensInvariant st.tokens) :
    tokensInvariant (exchange_code_for_token st code now http).state.tokens ∧
    tokensInvariant (refresh_access_token st now http).state.tokens ∧
    tokensInvariant (revoke_access st rhttp).1.tokens := by
  refine ⟨?_, ?_, Or.inl rfl⟩
  · cases http with
    | failure => exact hinv
    | success td =>
      rcases hacc : td.access_token with _ | a
      · simpa [exchange_code_for_token, hacc] using hinv
      · simp [exchange_code_for_token, hacc, tokensInvariant, Tokens.complete]
  · rcases hrt : st.tokens.refresh_token with _ | rt
    · simpa [refresh_access_token, hrt] using hinv
    · by_cases hrte : rt = ""
      · simpa [refresh_access_token, hrt, hrte] using hinv
      · cases http with
        | failure => simpa [refresh_access_token, hrt, hrte] using hinv
        | success td =>
          rcases hacc : td.access_token with _ | a
          · simpa [refresh_access_token, hrt, hrte, hacc] using hinv
          · simp [refresh_access_token, hrt, hrte, hacc, tokensInvariant,
              Tokens.complete]

/-- Witness for C7: the three operations applied to the empty state
with failing HTTP all preserve the invariant. -/
theorem write_ops_preserve_invariant_witness :
    tokensInvariant (exchange_code_for_token ⟨Tokens.emptyDict, none⟩ "c" 0
        .failure).state.tokens ∧
    tokensInvariant (refresh_access_token ⟨Tokens.emptyDict, none⟩ 0
        .failure).state.tokens ∧
    tokensInvariant (revoke_access ⟨Tokens.emptyDict, none⟩ .ok).1.tokens :=
  write_ops_preserve_invariant ⟨Tokens.emptyDict, none⟩ "c" 0 .failure .ok
    (Or.inl rfl)

/-- C10: a refresh response whose JSON carries the key refresh_token
with value null makes the refresh succeed while storing no refresh
token: the present key bypasses the carry-over default, erasing the
previously stored refresh token. -/
theorem refresh_null_erases_refresh_token (st : AuthState) (now : Int)
    (td : TokenResponse) (rt a : String)
    (hrt : st.tokens.refresh_token = some rt) (hne : rt ≠ "")
    (ha : td.access_token = some a) (hnull : td.refresh_token = some none) :
    (∃ nt, (refresh_access_token st now (.success td)).result = .ok nt) ∧
    (refresh_access_token st now (.success td)).state.tokens.refresh_token = none := by
  simp only [refresh_access_token, hrt, ha]
  rw [if_neg hne]
  exact ⟨⟨_, rfl⟩, by simp [pyGet, hnull]⟩

/-- Witness for C10: a concrete refresh whose response maps
refresh_token to null stores no refresh token. -/
theorem refresh_null_erases_refresh_token_witness :
    (refresh_access_token sampleState 0
        (.success ⟨some "new", some none, none, none⟩)).state.tokens.refresh_token =
      none :=
  (refresh_null_erases_refresh_token sampleState 0 ⟨some "new", some none, none, none⟩
    "r" "new" rfl (by decide) rfl rfl).2

/-- C9: the callback rejects with the state-mismatch response, invoking
no exchange, exactly when the returned state differs from the session
state; when they are equal it never answers state-mismatch; and the
code exchange is only ever invoked when the states matched. -/
theorem callback_state_check (argsState sessionState argsError argsCode : Option String)
    (now : Int) (http : HttpResult) (st : AuthState) :
    (argsState ≠ sessionState →
      callback argsState sessionState argsError argsCode now http st =
        ⟨.stateMismatch, st, 0⟩) ∧
    (argsState = sessionState →
      (callback argsState sessionState argsError argsCode now http st).response ≠
        .stateMismatch) ∧
    ((callback argsState sessionState argsError argsCode now http st).exchangeCalls ≠ 0 →
      argsState = sessionState) := by
  refine ⟨?_, ?_, ?_⟩
  · intro hne
    simp [callback, hne]
  · intro heq
    subst heq
    by_cases h1 : truthy argsError
    · simp [callback, h1]
    · by_cases h2 : truthy argsCode
      · rcases hres : (exchange_code_for_token st (argsCode.getD "") now http).result
          with e | t
        · simp [callback, h1, h2, hres]
        · simp [callback, h1, h2, hres]
      · simp [callback, h1, h2]
  · intro hcalls
    by_contra hne
    exact hcalls (by simp [callback, hne])

/-- Witness for C9: a concrete mismatching pair is rejected with the
state-mismatch response and no exchange call. -/
theorem callback_state_check_witness :
    callback (some "a") (some "b") none (some "c") 0 .failure ⟨Tokens.emptyDict, none⟩ =
      ⟨.stateMismatch, ⟨Tokens.emptyDict, none⟩, 0⟩ :=
  (callback_state_check (some "a") (some "b") none (some "c") 0 .failure
    ⟨Tokens.emptyDict, none⟩).1 (by decide)

/-- The pagination loop over a well-formed multi-page fixture collects
every page in arrival order, keeps within-page order, and makes one
request per page. -/
theorem paginate_loop_mkPages {α : Type} (pagesData : List (List α)) :
    ∀ (toks : List String) (acc : List (Collected α)) (calls : Nat),
      toks.length + 1 = pagesData.length →
      (∀ p ∈ pagesData, p ≠ []) →
      (∀ t ∈ toks, t ≠ "") →
      paginate_loop (mkPages pagesData toks) acc calls =
        .ok (acc ++ pagesData.flatten.map Collected.item, calls + pagesData.length) := by
  induction pagesData with
  | nil =>
    intro toks _ _ hlen _ _
    exact absurd hlen (by simp)
  | cons p rest ih =>
    intro toks acc calls hlen hne htok
    obtain ⟨x, xs, rfl⟩ : ∃ x xs, p = x :: xs := by
      have hp := hne p (by simp)
      cases p with
      | nil => exact absurd rfl hp
      | cons x xs => exact ⟨x, xs, rfl⟩
    cases rest with
    | nil =>
      simp [mkPages, paginate_loop]
    | cons q rest2 =>
      cases toks with
      | nil => exact absurd hlen (by simp)
      | cons t ts =>
        have ht : ¬ t = "" := htok t (by simp)
        simp only [mkPages, paginate_loop, Option.getD_some, List.isEmpty_cons,
          Bool.false_eq_true, if_false, ht, if_neg ht]
        rw [ih ts (acc ++ (x :: xs).map Collected.item) (calls + 1)
          (by simpa using hlen)
          (fun p' hp' => hne p' (List.mem_cons_of_mem _ hp'))
          (fun t' ht' => htok t' (List.mem_cons_of_mem _ ht'))]
        simp [List.append_assoc]
        omega

/-- C5: for every sequence of pages each carrying a non-empty records
array, with each page but the last carrying a non-empty continuation
token, _paginate_request returns the concatenation of all pages in
arrival order with within-page order preserved, from exactly one
upstream request per page. -/
theorem paginate_multipage {α : Type} (pagesData : List (List α)) (toks : List String)
    (hlen : toks.length + 1 = pagesData.length)
    (hne : ∀ p ∈ pagesData, p ≠ [])
    (htok : ∀ t ∈ toks, t ≠ "") :
    _paginate_request (mkPages pagesData toks) =
      .ok (pagesData.flatten.map Collected.item, pagesData.length) := by
  have h := paginate_loop_mkPages pagesData toks [] 0 hlen hne htok
  simpa [_paginate_request] using h

/-- Witness for C5: three pages of 25, 25 and 10 records yield exactly
the 60 records in order from exactly 3 upstream requests. -/
theorem paginate_multipage_witness :
    _paginate_request
        (mkPages [List.range 25, (List.range 25).map (· + 25), List.range 10] ["a", "b"]) =
      .ok (((List.range 25 ++ (List.range 25).map (· + 25) ++ List.range 10).map
        Collected.item), 3) := by
  have h := paginate_multipage [List.range 25, (List.range 25).map (· + 25), List.range 10]
    ["a", "b"] (by decide) (by decide) (by decide)
  simpa [List.append_assoc] using h

/-- C6: get_all_health_data returns exactly the four resource keys (the
fields of HealthData); for each key a fetch that raises yields the
empty list while a successful fetch yields exactly its aggregated
records, unaffected by the other three; the operation is total, so no
exception escapes. -/
theorem get_all_health_data_isolated {α : Type} (rp sp cp wp : List (PageResponse α)) :
    ((∀ e, _paginate_request rp = .error e →
        (get_all_health_data rp sp cp wp).recovery = []) ∧
     (∀ l n, _paginate_request rp = .ok (l, n) →
        (get_all_health_data rp sp cp wp).recovery = l)) ∧
    ((∀ e, _paginate_request sp = .error e →
        (get_all_health_data rp sp cp wp).sleep = []) ∧
     (∀ l n, _paginate_request sp = .ok (l, n) →
        (get_all_health_data rp sp cp wp).sleep = l)) ∧
    ((∀ e, _paginate_request cp = .error e →
        (get_all_health_data rp sp cp wp).cycles = []) ∧
     (∀ l n, _paginate_request cp = .ok (l, n) →
        (get_all_health_data rp sp cp wp).cycles = l)) ∧
    ((∀ e, _paginate_request wp = .error e →
        (get_all_health_data rp sp cp wp).workouts = []) ∧
     (∀ l n, _paginate_request wp = .ok (l, n) →
        (get_all_health_data rp sp cp wp).workouts = l)) := by
  have key : ∀ pages : List (PageResponse α),
      (∀ e, _paginate_request pages = .error e → fetchOrEmpty pages = []) ∧
      (∀ l n, _paginate_request pages = .ok (l, n) → fetchOrEmpty pages = l) := by
    intro pages
    constructor
    · intro e he
      simp [fetchOrEmpty, he]
    · intro l n h
      simp [fetchOrEmpty, h]
  exact ⟨key rp, key sp, key cp, key wp⟩

/-- Witness for C6: with the sleep oracle failing at its first request
and the other three succeeding, the result keeps the three fetched
lists and an empty sleep list. -/
theorem get_all_health_data_isolated_witness :
    (get_all_health_data [PageResponse.obj (some [1, 2]) none 0]
        ([] : List (PageResponse Nat)) [PageResponse.obj (some [3]) none 0]
        [PageResponse.obj (some [4]) none 0]).recovery =
      [Collected.item 1, Collected.item 2] ∧
    (get_all_health_data [PageResponse.obj (some [1, 2]) none 0]
        ([] : List (PageResponse Nat)) [PageResponse.obj (some [3]) none 0]
        [PageResponse.obj (some [4]) none 0]).sleep = [] ∧
    (get_all_health_data [PageResponse.obj (some [1, 2]) none 0]
        ([] : List (PageResponse Nat)) [PageResponse.obj (some [3]) none 0]
        [PageResponse.obj (some [4]) none 0]).cycles = [Collected.item 3] ∧
    (get_all_health_data [PageResponse.obj (some [1, 2]) none 0]
        ([] : List (PageResponse Nat)) [PageResponse.obj (some [3]) none 0]
        [PageResponse.obj (some [4]) none 0]).workouts = [Collected.item 4] :=
  have h := get_all_health_data_isolated [PageResponse.obj (some [1, 2]) none 0]
    ([] : List (PageResponse Nat)) [PageResponse.obj (some [3]) none 0]
    [PageResponse.obj (some [4]) none 0]
  ⟨h.1.2 [Collected.item 1, Collected.item 2] 1 rfl,
   h.2.1.1 .httpError rfl,
   h.2.2.1.2 [Collected.item 3] 1 rfl,
   h.2.2.2.2 [Collected.item 4] 1 rfl⟩

/-- C8, evaluated at the failing input: a bare JSON array response
makes _paginate_request raise AttributeError, because the expression
response.get(records, default) runs before the isinstance list check
and a Python list has no get attribute; the claimed behaviour of
returning the array elements is the unreachable branch below it. -/
theorem paginate_bare_array_raises :
    _paginate_request (α := Nat) [PageResponse.arr [1, 2, 3]] =
      .error .attributeError := rfl
